import Mathlib

/-!
Shallow embedding of `src/app/components/FileUploader1.tsx` (the
`FileUploader` React component and the route table that shares the file).

The component tracks a single `displayFile : File | null` state cell.
Its behaviour is driven by three kinds of events:
  * a drop event carrying the list of files the dropzone library accepted,
  * a click on the remove (cross) button,
  * the `useEffect` that syncs the external `file` prop into local state.
We model the state as `Option File`, the prop as `Option (Option File)`
(the outer layer distinguishes `undefined` from a present value, the inner
layer distinguishes `null` from a `File`), and the values passed to the
`onFileSelect` callback as `Option File` (`none` standing for `null`).
-/

namespace FileUploader

/-- A JavaScript `File` object, reduced to the fields the component reads
(`name` and `size`). Two distinct `File` objects compare unequal in JS;
structural equality here is only used in the sync effect, where either
outcome of the comparison leads to the same resulting state value. -/
structure File where
  name : String
  size : Nat
deriving DecidableEq, Repr

/-- A React mouse event, reduced to the two flags the remove handler sets. -/
structure MouseEvent where
  propagationStopped : Bool
  defaultPrevented : Bool
deriving DecidableEq, Repr

/-- Model of `e.stopPropagation()`. -/
def stopPropagation (e : MouseEvent) : MouseEvent :=
  { e with propagationStopped := true }

/-- Model of `e.preventDefault()`. -/
def preventDefault (e : MouseEvent) : MouseEvent :=
  { e with defaultPrevented := true }

/-- The `onDrop` callback computes `acceptedFiles[0] || null`. A `File`
object is always truthy in JS, so this is exactly the head of the list
when the list is nonempty and `null` otherwise. -/
def onDrop (acceptedFiles : List File) : Option File :=
  acceptedFiles.head?

/-- The `handleRemoveFile` handler: it calls `stopPropagation` then
`preventDefault` on the event, then clears the local state
(`setDisplayFile(null)`). The pair returned is the mutated event and the
new value of `displayFile`. The handler reads no other state and performs
no validation. -/
def handleRemoveFile (e : MouseEvent) : MouseEvent × Option File :=
  (preventDefault (stopPropagation e), none)

/-- The body of the `useEffect` hook: `fileToSet` is `null` when the prop
is `undefined` and the prop value otherwise; the state is updated to
`fileToSet` when it differs from the current `displayFile`, and left
unchanged (at the same value) otherwise. The result is the value of
`displayFile` after the effect has run. -/
def syncEffect (propFile : Option (Option File)) (displayFile : Option File) :
    Option File :=
  let fileToSet : Option File :=
    match propFile with
    | none => none
    | some v => v
  if fileToSet = displayFile then displayFile else fileToSet

/-- The events that drive the component's state. -/
inductive Event where
  | drop (acceptedFiles : List File)
  | removeClick (e : MouseEvent)
  | syncRun (propFile : Option (Option File))
deriving Repr

/-- One transition of the component's `displayFile` state cell. -/
def step (displayFile : Option File) (ev : Event) : Option File :=
  match ev with
  | .drop acceptedFiles => onDrop acceptedFiles
  | .removeClick e => (handleRemoveFile e).2
  | .syncRun propFile => syncEffect propFile displayFile

/-- The arguments the component passes to `onFileSelect` while handling
one event, given whether the optional callback was provided
(`onFileSelect?.(x)` is a no-op when it is absent). `onDrop` calls it with
the dropped file, `handleRemoveFile` calls it with `null`, and the sync
effect never calls it. -/
def emits (hasCallback : Bool) (ev : Event) : List (Option File) :=
  if hasCallback then
    match ev with
    | .drop acceptedFiles => [onDrop acceptedFiles]
    | .removeClick _ => [none]
    | .syncRun _ => []
  else []

/-- JS truthiness of a `File | null` value: `null` is falsy and every
`File` object is truthy, so `!!displayFile` is `Option.isSome`. -/
def jsTruthyFile (v : Option File) : Bool :=
  match v with
  | some _ => true
  | none => false

/-- The `maxFileSize` constant: `20 * 1024 * 1024` bytes. -/
def maxFileSize : Nat := 20 * 1024 * 1024

/-- The options object passed to `useDropzone`, restricted to the
validation and interaction fields (the `onDrop` handler itself is modelled
separately above). -/
structure DropzoneConfig where
  multiple : Bool
  accept : List (String × List String)
  maxSize : Nat
  noClick : Bool
deriving DecidableEq, Repr

/-- The options the component passes to `useDropzone`, as a function of
the current `displayFile` state (the object is rebuilt on each render). -/
def dropzoneConfig (displayFile : Option File) : DropzoneConfig :=
  { multiple := false
    accept := [("application/pdf", [".pdf"])]
    maxSize := maxFileSize
    noClick := jsTruthyFile displayFile }

/-- The files currently tracked by the component: the content of the
single `displayFile` cell. -/
def trackedFiles (displayFile : Option File) : List File :=
  displayFile.toList

/-- The states the component can reach: it mounts with
`useState<File | null>(null)` and evolves by `step`. -/
inductive Reachable : Option File → Prop where
  | init : Reachable none
  | next : ∀ s ev, Reachable s → Reachable (step s ev)

end FileUploader

namespace Routes

/-- One entry of the route table: `path = none` for the `index` route,
`some p` for `route(p, file)`. -/
structure RouteEntry where
  path : Option String
  file : String
deriving DecidableEq, Repr

/-- The default export of the routes module:
`[index("routes/home.tsx"), route("/auth", "routes/Auth.tsx"), route("/upload", "routes/Upload.tsx")]`. -/
def routesConfig : List RouteEntry :=
  [ { path := none, file := "routes/home.tsx" },
    { path := some "/auth", file := "routes/Auth.tsx" },
    { path := some "/upload", file := "routes/Upload.tsx" } ]

end Routes

namespace FileUploader

/-- C1: dropping a file the dropzone accepts stores that file in the
displayed-file state and, when the `onFileSelect` callback is provided,
invokes it exactly once with that same file. -/
theorem onDrop_accepted_sets_state_and_notifies
    (s : Option File) (f : File) :
    step s (.drop [f]) = some f ∧ emits true (.drop [f]) = [some f] := by
  constructor <;> rfl

/-- C2: from any state in which a file is displayed, the remove handler
clears the displayed-file state to `null` and, when the callback is
provided, invokes it exactly once with `null`. -/
theorem removeFile_clears_state_and_notifies
    (s : Option File) (f : File) (e : MouseEvent) (h : s = some f) :
    step s (.removeClick e) = none ∧ emits true (.removeClick e) = [none] := by
  constructor <;> rfl

/-- Witness for C2 at a concrete displayed file and event. -/
theorem removeFile_clears_state_and_notifies_witness :
    step (some { name := "resume.pdf", size := 1024 }) (.removeClick ⟨false, false⟩) = none ∧
    emits true (.removeClick ⟨false, false⟩) = [none] :=
  removeFile_clears_state_and_notifies
    (some { name := "resume.pdf", size := 1024 })
    { name := "resume.pdf", size := 1024 } ⟨false, false⟩ rfl

/-- C3: the validation is exactly the configuration handed to
`useDropzone` — accepted type `application/pdf` with extension `.pdf` and
maximum size `20 * 1024 * 1024` bytes — while the component's own drop
handler performs no filtering of its own: it takes the head of whatever
list the library accepted, whatever the files look like. -/
theorem validation_is_dropzone_config_only (d : Option File) :
    (dropzoneConfig d).accept = [("application/pdf", [".pdf"])] ∧
    (dropzoneConfig d).maxSize = 20 * 1024 * 1024 ∧
    ∀ s fs, step s (.drop fs) = fs.head? := by
  refine ⟨rfl, rfl, ?_⟩
  intro s fs
  rfl

/-- C4: after the sync effect runs, the local displayed-file state equals
the external prop value, with an `undefined` prop treated as `null`. -/
theorem syncEffect_makes_state_equal_prop
    (p : Option (Option File)) (d : Option File) :
    step d (.syncRun p) = p.getD none := by
  cases p with
  | none =>
      simp only [step, syncEffect, Option.getD]
      split <;> simp_all
  | some v =>
      simp only [step, syncEffect, Option.getD]
      split <;> simp_all

/-- C5: in every reachable state at most one file is tracked — the state
is a single `File`-or-`null` cell, the dropzone is configured with
`multiple: false`, and the drop handler keeps only the first element of
the accepted-files list. -/
theorem at_most_one_file_tracked (s : Option File) (h : Reachable s) :
    (trackedFiles s).length ≤ 1 ∧
    (dropzoneConfig s).multiple = false ∧
    ∀ fs, step s (.drop fs) = fs.head? := by
  refine ⟨?_, rfl, fun fs => rfl⟩
  cases s <;> simp [trackedFiles]

/-- Witness for C5 at the initial state. -/
theorem at_most_one_file_tracked_witness :
    (trackedFiles none).length ≤ 1 ∧
    (dropzoneConfig none).multiple = false ∧
    ∀ fs, step none (.drop fs) = fs.head? :=
  at_most_one_file_tracked none Reachable.init

/-- C6: every value the component passes to `onFileSelect` is either a
`File` reference or `null`, and the sync effect emits nothing — the drop
and remove handlers are the only sources of callback invocations. -/
theorem emitted_values_are_file_or_null
    (hasCallback : Bool) (ev : Event) (v : Option File)
    (hv : v ∈ emits hasCallback ev) :
    (v = none ∨ ∃ f, v = some f) ∧
    ∀ p, emits hasCallback (.syncRun p) = [] := by
  constructor
  · cases v with
    | none => exact Or.inl rfl
    | some f => exact Or.inr ⟨f, rfl⟩
  · intro p
    cases hasCallback <;> rfl

/-- Witness for C6: the value emitted by a remove click. -/
theorem emitted_values_are_file_or_null_witness :
    (((none : Option File) = none ∨ ∃ f, (none : Option File) = some f) ∧
      ∀ p, emits true (.syncRun p) = []) :=
  emitted_values_are_file_or_null true (.removeClick ⟨false, false⟩) none
    (by simp [emits])

/-- C8: the remove handler's only guard is event-propagation suppression:
it applies `stopPropagation` then `preventDefault` to the event, sets both
flags, clears the state, and does nothing else — in particular its result
does not depend on anything but the event. -/
theorem removeFile_guard_is_propagation_only (e : MouseEvent) :
    (handleRemoveFile e).1 = preventDefault (stopPropagation e) ∧
    (handleRemoveFile e).1.propagationStopped = true ∧
    (handleRemoveFile e).1.defaultPrevented = true ∧
    (handleRemoveFile e).2 = none :=
  ⟨rfl, rfl, rfl, rfl⟩

/-- C9: when the library rejects every dropped file (empty accepted list),
the drop handler sets the displayed file to `null` and invokes the
callback with `null`, clearing any previously selected file. -/
theorem rejected_drop_clears_state (s : Option File) :
    step s (.drop []) = none ∧ emits true (.drop []) = [none] :=
  ⟨rfl, rfl⟩

/-- C10: the dropzone's `noClick` option equals the truthiness of the
displayed-file state, so the click-to-open-dialog behaviour is disabled
exactly when a file is displayed. -/
theorem noClick_iff_file_displayed (d : Option File) :
    (dropzoneConfig d).noClick = d.isSome ∧
    ∀ f, (dropzoneConfig (some f)).noClick = true := by
  refine ⟨?_, fun f => rfl⟩
  cases d <;> rfl

end FileUploader

namespace Routes

/-- C7: the route table has exactly three entries, mapping the index path
to `routes/home.tsx`, `/auth` to `routes/Auth.tsx` and `/upload` to
`routes/Upload.tsx`, and nothing else. -/
theorem routes_are_exactly_three :
    routesConfig.length = 3 ∧
    routesConfig.map RouteEntry.path = [none, some "/auth", some "/upload"] ∧
    routesConfig.map RouteEntry.file =
      ["routes/home.tsx", "routes/Auth.tsx", "routes/Upload.tsx"] :=
  ⟨rfl, rfl, rfl⟩

end Routes
